import Mathlib

/-!
Shallow embedding of the webhook server in `src/app.ts` (repository
`hvbr1s/webhooks-gcp`): signature-verification chain, DER→IEEE-P1363
signature codec, event routing between the Fordefi (SourceA) and
Hypernative (SourceB) paths, the downstream signing-trigger client, and
the per-request HTTP handlers for `POST /` and `POST /hypernative`.

Bytes are modelled as `List Nat` (each element a byte value).  External
primitives that the handlers call — `JSON.parse`, `crypto.subtle`
key-import / ECDSA-verify, base64 decoding, and the axios HTTP client —
are parameters of the embedding, so that theorems quantify over every
possible behaviour of those primitives and witnesses can instantiate
them concretely.
-/

namespace Webhooks

/-- Big-endian interpretation of a byte list as a natural number. -/
def bytesToNat (bs : List Nat) : Nat := bs.foldl (fun acc b => acc * 256 + b) 0

/-- Left-pad a byte list with zero bytes to length 32
(`toCompactRawBytes` emits each component at exactly 32 bytes). -/
def pad32 (bs : List Nat) : List Nat := List.replicate (32 - bs.length) 0 ++ bs

/-- Strip a single leading `0x00` sign byte from an ASN.1 INTEGER
content, as the codec specification requires before measuring length. -/
def strip1 : List Nat → List Nat
  | 0 :: rest => rest
  | c => c

/-- Modelled from the spec: §4.2's conversion of one ASN.1 INTEGER
content into a 32-byte big-endian component.  The concrete code
(`derToP1363` in `src/app.ts`) delegates this step to
`p256.Signature.fromDER` of the external `@noble/curves` package, whose
source is not part of this repository.  Rejects (error) an empty
content, a negative value (leading byte ≥ 0x80), or a content longer
than 32 bytes after stripping a single leading zero. -/
def convInt (c : List Nat) : Except Unit (List Nat) :=
  match c with
  | [] => .error ()
  | b :: rest =>
    if 128 ≤ b then .error ()
    else if 32 < (strip1 (b :: rest)).length then .error ()
    else .ok (pad32 (strip1 (b :: rest)))

/-- Modelled from the spec: §4.2's DER → IEEE P1363 codec, the
behaviour of `derToP1363` in `src/app.ts` whose parsing is performed by
the external `@noble/curves` package.  Input must be an ASN.1 SEQUENCE
(tag `0x30`, short-form length covering the rest exactly) of two
INTEGERs (tag `0x02`); output is 32-byte big-endian `r` followed by
32-byte big-endian `s`.  Anything else is a `SignatureFormatError`,
modelled as `.error ()`. -/
def derToP1363 (der : List Nat) : Except Unit (List Nat) :=
  match der with
  | 48 :: len :: rest =>
    if 128 ≤ len ∨ rest.length ≠ len then .error ()
    else match rest with
      | 2 :: rlen :: rest2 =>
        if 128 ≤ rlen ∨ rest2.length < rlen then .error ()
        else match rest2.drop rlen with
          | 2 :: slen :: sc =>
            if 128 ≤ slen ∨ sc.length ≠ slen then .error ()
            else match convInt (rest2.take rlen), convInt sc with
              | .ok r32, .ok s32 => .ok (r32 ++ s32)
              | _, _ => .error ()
          | _ => .error ()
      | _ => .error ()
  | _ => .error ()

/-- The DER encoding of an ECDSA signature whose INTEGER contents are
`rc` and `sc`: SEQUENCE header, then the two INTEGERs. -/
def mkDer (rc sc : List Nat) : List Nat :=
  48 :: (4 + rc.length + sc.length) :: 2 :: rc.length :: (rc ++ 2 :: sc.length :: sc)

/-- JavaScript values produced by `JSON.parse`. -/
inductive Json where
  | null
  | bool (b : Bool)
  | num (n : Int)
  | str (s : String)
  | arr (elems : List Json)
  | obj (fields : List (String × Json))

/-- Property lookup `j.k` on a parsed value: defined on objects, and
`undefined` (here `none`) on every other value (arrays have no
`digitalSignature` / `data` properties after `JSON.parse`; numeric
indices are never probed by the handlers). -/
def Json.lookup (j : Json) (k : String) : Option Json :=
  match j with
  | .obj fields => (fields.find? (fun p => p.1 = k)).map (·.2)
  | _ => none

/-- Whether the value is the JavaScript `null` (property access on it
throws a `TypeError`). -/
def Json.isNull : Json → Bool
  | .null => true
  | _ => false

/-- JavaScript truthiness of a parsed value. -/
def Json.truthy : Json → Bool
  | .null => false
  | .bool b => b
  | .num n => n ≠ 0
  | .str s => s ≠ ""
  | .arr _ => true
  | .obj _ => true

/-- Truthiness of a possibly-`undefined` value (`undefined` is falsy). -/
def jsTruthy : Option Json → Bool
  | none => false
  | some j => j.truthy

/-- Truthiness of a possibly-absent header value (absent or the empty
string is falsy). -/
def strTruthy : Option String → Bool
  | none => false
  | some s => s ≠ ""

/-- UTF-8 encoding of one character (RFC 3629). -/
def utf8EncodeChar (c : Char) : List Nat :=
  let n := c.toNat
  if n < 128 then [n]
  else if n < 2048 then [192 + n / 64, 128 + n % 64]
  else if n < 65536 then [224 + n / 4096, 128 + (n / 64) % 64, 128 + n % 64]
  else [240 + n / 262144, 128 + (n / 4096) % 64, 128 + (n / 64) % 64, 128 + n % 64]

/-- UTF-8 bytes of a string: the bytes `Buffer.from(s, 'utf8')`
produces. -/
def utf8Bytes (s : String) : List Nat := s.data.flatMap utf8EncodeChar

/-- The PEM-stripping performed at the top of both verification
functions: rewrite escaped `\n` to real newlines, drop the
`BEGIN/END PUBLIC KEY` delimiter lines, remove all whitespace. -/
def pemStrip (pem : String) : String :=
  let normalized := pem.replace "\\n" "\n"
  let contents :=
    (normalized.replace "-----BEGIN PUBLIC KEY-----" "").replace
      "-----END PUBLIC KEY-----" ""
  String.mk (contents.toList.filter (fun c => ¬ c.isWhitespace))

/-- The external primitives the verification chain calls, abstracted so
theorems cover every possible behaviour.  `K` is the type of imported
key handles (`CryptoKey` in the Web Crypto API).  `b64Decode` models
`Buffer.from(·, 'base64')`, which in Node is lenient and total;
`importKey` models `crypto.subtle.importKey` (may reject); `ecdsaVerify`
models `crypto.subtle.verify` applied to (key, P1363 signature bytes,
message bytes) and may also reject. -/
structure CryptoPrims (K : Type) where
  b64Decode : String → List Nat
  importKey : List Nat → Except Unit K
  ecdsaVerify : K → List Nat → List Nat → Except Unit Bool

/-- The fallible body of the `try` block shared by `verifySignature`
and `verifyHypernativeSignature` in `src/app.ts`: strip the PEM, base64
decode it, import the key, base64 decode the signature envelope,
convert DER to P1363, verify. -/
def verifyEcdsaChain {K : Type} (prims : CryptoPrims K) (pem sig : String)
    (body : List Nat) : Except Unit Bool := do
  let publicKeyBytes := prims.b64Decode (pemStrip pem)
  let publicKey ← prims.importKey publicKeyBytes
  let derSignatureBytes := prims.b64Decode sig
  let ieeeSignature ← derToP1363 derSignatureBytes
  prims.ecdsaVerify publicKey ieeeSignature body

/-- `verifySignature` from `src/app.ts` (Fordefi key): the whole chain
runs inside `try { ... } catch { return false }`, so every error
collapses to `false`.  `pem` stands for the global
`FORDEFI_PUBLIC_KEY`. -/
def verifySignature {K : Type} (prims : CryptoPrims K) (pem sig : String)
    (body : List Nat) : Bool :=
  match verifyEcdsaChain prims pem sig body with
  | .ok b => b
  | .error _ => false

/-- `verifyHypernativeSignature` from `src/app.ts`: textually the same
chain as `verifySignature` but over the global
`HYPERNATIVE_PUBLIC_KEY` (passed here as `pem`). -/
def verifyHypernativeSignature {K : Type} (prims : CryptoPrims K) (pem sig : String)
    (body : List Nat) : Bool :=
  match verifyEcdsaChain prims pem sig body with
  | .ok b => b
  | .error _ => false

/-- Outcome of the axios POST inside `triggerTransactionSigning`: with
`validateStatus: () => true` axios resolves with the response for any
HTTP status and rejects only on network-level failure. -/
inductive HttpOutcome where
  | response (status : Nat)
  | networkError

/-- `triggerTransactionSigning` from `src/app.ts`, with the axios call
abstracted as `post`.  Returns `true` exactly for a 2xx status; any
other status, and the catch-handler for network errors, return
`false`. -/
def triggerTransactionSigning (post : String → HttpOutcome)
    (transactionId : String) : Bool :=
  match post transactionId with
  | .response s => decide (200 ≤ s ∧ s < 300)
  | .networkError => false

/-- Startup loading of a public key (the two `try` blocks at the top of
`src/app.ts`): if the environment variable is set its value is used
as-is; otherwise the key file is read, and only a file-read failure
reaches the catch, which calls `process.exit(1)` (modelled as
`.error ()`).  No decoding or parsing of the key text happens here. -/
def loadPublicKey (envVar : Option String) (fileRead : Except Unit String) :
    Except Unit String :=
  match envVar with
  | some k => .ok k
  | none => fileRead

/-- An inbound HTTP request as the handlers see it: the two recognized
headers and the raw body captured by `express.raw` (`none` when no
body was captured, `some []` when it is empty). -/
structure HttpRequest where
  transactionIdHeader : Option String
  xSignatureHeader : Option String
  body : Option (List Nat)

/-- An HTTP response: status code plus the JSON document passed to
`res.json`. -/
structure Response where
  status : Nat
  body : Json

/-- Effect trace of one request: how many times the raw body was fed
to `JSON.parse`, the (signature, message) pairs passed to
`verifyHypernativeSignature` and to `verifySignature`, and the
transaction ids passed to `triggerTransactionSigning`. -/
structure Trace where
  bodyParses : Nat
  hyperVerifyCalls : List (String × List Nat)
  fordefiVerifyCalls : List (String × List Nat)
  triggerCalls : List String

/-- External collaborators of the handlers, abstracted: `parseJson`
models `JSON.parse` on the raw body bytes (`none` = the parser threw);
`verifyHyper` and `verifyFordefi` model the boolean outcomes of the
two verification functions (total by their catch-all); `trigger`
models the boolean outcome of `triggerTransactionSigning`. -/
structure Env where
  parseJson : List Nat → Option Json
  verifyHyper : String → List Nat → Bool
  verifyFordefi : String → List Nat → Bool
  trigger : String → Bool
  arrayBytes : List Json → List Nat
  objBytes : List (String × Json) → Option (List Nat)

/-- The bytes `Buffer.from(value, 'utf8')` yields for the value of the
`data` field, or `none` when it throws.  A string gives its UTF-8
bytes (the encoding argument applies only to strings).  An array
always succeeds — the encoding is ignored and each entry is coerced to
a byte (JS `ToNumber` modulo 256); the entry coercion is kept abstract
as `env.arrayBytes`.  A plain object succeeds only when it is
array-like (a numeric `length` property) or a serialized Buffer
(`type:'Buffer'` with a `data` array) and throws otherwise; this is
kept abstract as `env.objBytes`.  `undefined` (an absent field),
`null`, numbers and booleans make `Buffer.from` throw. -/
def dataBytes (env : Env) : Option Json → Option (List Nat)
  | some (.str s) => some (utf8Bytes s)
  | some (.arr elems) => some (env.arrayBytes elems)
  | some (.obj fields) => env.objBytes fields
  | _ => none

/-- `{ error: msg }` response documents. -/
def errBody (msg : String) : Json := .obj [("error", .str msg)]

/-- The 200 body when signing was triggered successfully. -/
def hyperSuccessBody (tid : String) : Json :=
  .obj [("status", .str "success"),
        ("message", .str "Hypernative webhook received, processed, and signing triggered"),
        ("transactionId", .str tid),
        ("signingTriggered", .bool true)]

/-- The 200 body when the signing trigger call failed. -/
def hyperPartialBody (tid : String) : Json :=
  .obj [("status", .str "partial_success"),
        ("message", .str "Hypernative webhook received and processed, but signing trigger failed"),
        ("transactionId", .str tid),
        ("signingTriggered", .bool false)]

/-- The 200 body when no transaction id header was provided. -/
def hyperNoTidBody : Json :=
  .obj [("status", .str "success"),
        ("message", .str "Hypernative webhook received and processed (no transaction ID to trigger)"),
        ("signingTriggered", .bool false)]

/-- The 200 body of the Fordefi path. -/
def fordefiSuccessBody : Json :=
  .obj [("status", .str "success"),
        ("message", .str "Fordefi webhook received and processed")]

/-- `handleHypernativeWebhook` from `src/app.ts`.  Steps, in source
order: read the `fordefi-transaction-id` header; reject an absent or
empty raw body with 400; `JSON.parse` the body (a throw is caught by
the outer catch → 500; a body parsing to `null` throws at the first
property access → 500); reject a falsy `digitalSignature` field with
401; build `Buffer.from(hypernativeData.data, 'utf8')` (see
`dataBytes`: strings give UTF-8 bytes, arrays and array-like objects
also succeed, everything else throws → 500); verify the signature
over those bytes (a non-string `digitalSignature` makes the verifier
throw internally and return false); on failure 401; then, if the
transaction id header is truthy, call the trigger and answer 200 with
`signingTriggered` set from its outcome, else answer 200 without
triggering.  The nested logging-only `JSON.parse(hypernativeData.data)`
(its errors are swallowed) has no observable effect and is not
traced. -/
def handleHypernativeWebhook (env : Env) (req : HttpRequest) : Response × Trace :=
  match req.body with
  | none => (⟨400, errBody "Empty request body"⟩, ⟨0, [], [], []⟩)
  | some bs =>
    if bs.length = 0 then (⟨400, errBody "Empty request body"⟩, ⟨0, [], [], []⟩)
    else match env.parseJson bs with
      | none => (⟨500, errBody "Internal server error"⟩, ⟨1, [], [], []⟩)
      | some j =>
        if j.isNull then
          -- the body parsed to the literal `null`: the property access
          -- `hypernativeData.digitalSignature` throws a TypeError,
          -- caught by the outer catch
          (⟨500, errBody "Internal server error"⟩, ⟨1, [], [], []⟩)
        else if ¬ jsTruthy (j.lookup "digitalSignature") then
          (⟨401, errBody "Missing digitalSignature"⟩, ⟨1, [], [], []⟩)
        else match dataBytes env (j.lookup "data") with
          | some msg =>
            match j.lookup "digitalSignature" with
            | some (.str sig) =>
              if env.verifyHyper sig msg then
                match req.transactionIdHeader with
                | some tid =>
                  if tid = "" then
                    (⟨200, hyperNoTidBody⟩, ⟨1, [(sig, msg)], [], []⟩)
                  else if env.trigger tid then
                    (⟨200, hyperSuccessBody tid⟩, ⟨1, [(sig, msg)], [], [tid]⟩)
                  else
                    (⟨200, hyperPartialBody tid⟩, ⟨1, [(sig, msg)], [], [tid]⟩)
                | none => (⟨200, hyperNoTidBody⟩, ⟨1, [(sig, msg)], [], []⟩)
              else (⟨401, errBody "Invalid signature"⟩, ⟨1, [(sig, msg)], [], []⟩)
            | _ =>
              -- a truthy non-string signature value makes
              -- `verifyHypernativeSignature` throw internally (e.g.
              -- `Buffer.from(number, 'base64')`), which its catch turns
              -- into `false`
              (⟨401, errBody "Invalid signature"⟩, ⟨1, [], [], []⟩)
          | none =>
            -- `Buffer.from(hypernativeData.data, 'utf8')` threw; the
            -- outer catch answers 500
            (⟨500, errBody "Internal server error"⟩, ⟨1, [], [], []⟩)

/-- `app.post('/hypernative')` from `src/app.ts`: delegates directly to
`handleHypernativeWebhook`, with no router classification. -/
def handleHypernativeEndpoint (env : Env) (req : HttpRequest) : Response × Trace :=
  handleHypernativeWebhook env req

/-- The Fordefi branch of `app.post('/')` (steps 1–4 after the routing
check): missing or empty `x-signature` header → 401; absent or empty
body → 400; failed verification → 401; then `JSON.parse` of the raw
body (a throw is caught by the outer catch → 500) and a 200
response. -/
def fordefiPath (env : Env) (req : HttpRequest) : Response × Trace :=
  match req.xSignatureHeader with
  | none => (⟨401, errBody "Missing signature"⟩, ⟨0, [], [], []⟩)
  | some sig =>
    if sig = "" then (⟨401, errBody "Missing signature"⟩, ⟨0, [], [], []⟩)
    else match req.body with
      | none => (⟨400, errBody "Empty request body"⟩, ⟨0, [], [], []⟩)
      | some bs =>
        if bs.length = 0 then (⟨400, errBody "Empty request body"⟩, ⟨0, [], [], []⟩)
        else if env.verifyFordefi sig bs then
          match env.parseJson bs with
          | some _ => (⟨200, fordefiSuccessBody⟩, ⟨1, [], [(sig, bs)], []⟩)
          | none => (⟨500, errBody "Internal server error"⟩, ⟨1, [], [(sig, bs)], []⟩)
        else (⟨401, errBody "Invalid signature"⟩, ⟨0, [], [(sig, bs)], []⟩)

/-- Add one `JSON.parse` call on the raw body to a trace. -/
def bumpParse : Response × Trace → Response × Trace
  | (r, t) => (r, ⟨t.bodyParses + 1, t.hyperVerifyCalls, t.fordefiVerifyCalls, t.triggerCalls⟩)

/-- `app.post('/')` from `src/app.ts`: when the
`fordefi-transaction-id` header is truthy and the body is non-empty,
the body is speculatively `JSON.parse`d; if that succeeds and the
parsed value has a truthy `digitalSignature` field the request is
routed to `handleHypernativeWebhook` (which parses the body again),
otherwise — including when the speculative parse throws, or when the
body parses to `null` and the probing field access throws inside the
same inner `try` (observably identical to a falsy field here) —
handling falls through to the Fordefi branch. -/
def handleMainWebhook (env : Env) (req : HttpRequest) : Response × Trace :=
  match req.transactionIdHeader, req.body with
  | some tid, some bs =>
    if tid = "" ∨ bs.length = 0 then fordefiPath env req
    else match env.parseJson bs with
      | some j =>
        if jsTruthy (j.lookup "digitalSignature") then
          bumpParse (handleHypernativeWebhook env req)
        else bumpParse (fordefiPath env req)
      | none => bumpParse (fordefiPath env req)
  | _, _ => fordefiPath env req

-- Concrete fixtures for witness and counterexample theorems.

/-- A crypto-primitive instance whose key import always rejects,
standing for structurally invalid key bytes. -/
def primsRejectKey : CryptoPrims Unit :=
  ⟨fun _ => [], fun _ => .error (), fun _ _ _ => .error ()⟩

/-- Raw bytes of the JSON text
`\x7b"digitalSignature":"c2ln","data":"payload"\x7d`. -/
def exHyperBody : List Nat :=
  utf8Bytes "\x7b\"digitalSignature\":\"c2ln\",\"data\":\"payload\"\x7d"

/-- The value `JSON.parse` yields on `exHyperBody`. -/
def exHyperJson : Json :=
  .obj [("digitalSignature", .str "c2ln"), ("data", .str "payload")]

/-- Raw bytes of the JSON text `\x7b"digitalSignature":""\x7d` — the
signature field is present but falsy. -/
def exFalsySigBody : List Nat := utf8Bytes "\x7b\"digitalSignature\":\"\"\x7d"

/-- The value `JSON.parse` yields on `exFalsySigBody`. -/
def exFalsySigJson : Json := .obj [("digitalSignature", .str "")]

/-- Raw bytes of the JSON text `\x7b"alert":"x"\x7d`, which carries no
signature field at all. -/
def exNoSigBody : List Nat := utf8Bytes "\x7b\"alert\":\"x\"\x7d"

/-- The value `JSON.parse` yields on `exNoSigBody`. -/
def exNoSigJson : Json := .obj [("alert", .str "x")]

/-- A parse function behaving like `JSON.parse` on the three fixture
bodies (and throwing on anything else). -/
def exParse : List Nat → Option Json := fun b =>
  if b = exHyperBody then some exHyperJson
  else if b = exFalsySigBody then some exFalsySigJson
  else if b = exNoSigBody then some exNoSigJson
  else none

/-- An environment over `exParse` whose verifications both fail (as
with signatures that do not match), with a failing trigger; arrays
coerce to empty byte lists and plain objects throw in `Buffer.from`
(the fixture bodies only carry string `data`, so neither is ever
consulted). -/
def envAllInvalid : Env :=
  ⟨exParse, fun _ _ => false, fun _ _ => false, fun _ => false,
    fun _ => [], fun _ => none⟩

/-- An environment over `exParse` whose Hypernative verification
succeeds, while the downstream trigger fails. -/
def envHyperValidTriggerFail : Env :=
  ⟨exParse, fun _ _ => true, fun _ _ => false, fun _ => false,
    fun _ => [], fun _ => none⟩

/-- An environment over `exParse` with both verifications and the
trigger succeeding. -/
def envAllValid : Env :=
  ⟨exParse, fun _ _ => true, fun _ _ => true, fun _ => true,
    fun _ => [], fun _ => none⟩

/-- An upstream that always answers HTTP 503. -/
def post503 : String → HttpOutcome := fun _ => .response 503

/-- An upstream that always answers HTTP 200. -/
def post200 : String → HttpOutcome := fun _ => .response 200

/-- A value with a defined property is not the JavaScript `null`. -/
theorem isNull_false_of_lookup (j : Json) (k : String) (v : Json)
    (h : j.lookup k = some v) : j.isNull = false := by
  rcases j
  all_goals first
    | rfl
    | simp [Json.lookup] at h

/-- Evaluation of the Hypernative handler once the parse, the
signature field and the bytes `Buffer.from` derives from the `data`
value are pinned down: only the verification outcome, the
transaction-id header and the trigger outcome remain. -/
theorem handleHyper_eval (env : Env) (t x : Option String) (bs : List Nat) (j : Json)
    (sig : String) (msg : List Nat) (hb : bs.length ≠ 0) (hj : env.parseJson bs = some j)
    (hds : j.lookup "digitalSignature" = some (.str sig)) (hsig : sig ≠ "")
    (hdata : dataBytes env (j.lookup "data") = some msg) :
    handleHypernativeWebhook env ⟨t, x, some bs⟩ =
      if env.verifyHyper sig msg then
        match t with
        | some tid =>
          if tid = "" then (⟨200, hyperNoTidBody⟩, ⟨1, [(sig, msg)], [], []⟩)
          else if env.trigger tid then
            (⟨200, hyperSuccessBody tid⟩, ⟨1, [(sig, msg)], [], [tid]⟩)
          else (⟨200, hyperPartialBody tid⟩, ⟨1, [(sig, msg)], [], [tid]⟩)
        | none => (⟨200, hyperNoTidBody⟩, ⟨1, [(sig, msg)], [], []⟩)
      else (⟨401, errBody "Invalid signature"⟩, ⟨1, [(sig, msg)], [], []⟩) := by
  have hnull := isNull_false_of_lookup j "digitalSignature" (.str sig) hds
  simp [handleHypernativeWebhook, hb, hj, hnull, hds, hdata, jsTruthy, Json.truthy, hsig]

/-- The Hypernative handler either makes no trigger call, or it makes
exactly one, and then the request carried a parsable body whose
signature field verified over the bytes `Buffer.from` derived from its
`data` value and the response is a 200. -/
theorem handleHyper_trigger_spec (env : Env) (req : HttpRequest) :
    (handleHypernativeWebhook env req).2.triggerCalls = [] ∨
    ∃ bs j sig msg tid,
      req.body = some bs ∧ bs.length ≠ 0 ∧ env.parseJson bs = some j ∧
      j.lookup "digitalSignature" = some (.str sig) ∧ sig ≠ "" ∧
      dataBytes env (j.lookup "data") = some msg ∧
      env.verifyHyper sig msg = true ∧
      req.transactionIdHeader = some tid ∧ tid ≠ "" ∧
      (handleHypernativeWebhook env req).2.triggerCalls = [tid] ∧
      (handleHypernativeWebhook env req).1.status = 200 := by
  rcases req with ⟨t, x, b⟩
  rcases b with _ | bs
  · left; rfl
  rcases Nat.eq_zero_or_pos bs.length with hb | hbpos
  · left; simp [handleHypernativeWebhook, hb]
  have hb' : bs.length ≠ 0 := Nat.pos_iff_ne_zero.mp hbpos
  rcases hj : env.parseJson bs with _ | j
  · left; simp [handleHypernativeWebhook, hb', hj]
  by_cases hnull : j.isNull = true
  · left; simp [handleHypernativeWebhook, hb', hj, hnull]
  by_cases hT : jsTruthy (j.lookup "digitalSignature") = true
  · rcases hdb : dataBytes env (j.lookup "data") with _ | msg
    · left; simp [handleHypernativeWebhook, hb', hj, hnull, hT, hdb]
    rcases hds : j.lookup "digitalSignature" with _ | dsv
    · rw [hds] at hT; exact absurd hT (by simp [jsTruthy])
    rcases dsv with _ | bv | nv | sig | es | fs
    · rw [hds] at hT; exact absurd hT (by simp [jsTruthy, Json.truthy])
    · left
      simp [handleHypernativeWebhook, hb', hj, hnull, hT, hdb, hds,
        apply_ite (fun p : Response × Trace => p.2.triggerCalls)]
    · left
      simp [handleHypernativeWebhook, hb', hj, hnull, hT, hdb, hds,
        apply_ite (fun p : Response × Trace => p.2.triggerCalls)]
    · -- signature field is a string sig; truthiness forces sig ≠ ""
      have hsig : sig ≠ "" := by
        rw [hds] at hT; simpa [jsTruthy, Json.truthy] using hT
      rw [handleHyper_eval env t x bs j sig msg hb' hj hds hsig hdb]
      by_cases hv : env.verifyHyper sig msg = true
      · rcases t with _ | tid
        · left; simp [hv]
        by_cases htid : tid = ""
        · left; simp [hv, htid]
        · right
          refine ⟨bs, j, sig, msg, tid, rfl, hb', hj, hds, hsig, hdb, hv, rfl, htid, ?_, ?_⟩
          · by_cases htr : env.trigger tid = true <;> simp [hv, htid, htr]
          · by_cases htr : env.trigger tid = true <;> simp [hv, htid, htr]
      · left; simp [hv]
    · left
      simp [handleHypernativeWebhook, hb', hj, hnull, hT, hdb, hds,
        apply_ite (fun p : Response × Trace => p.2.triggerCalls)]
    · left
      simp [handleHypernativeWebhook, hb', hj, hnull, hT, hdb, hds,
        apply_ite (fun p : Response × Trace => p.2.triggerCalls)]
  · left; simp [handleHypernativeWebhook, hb', hj, hnull, hT]

/-- The Fordefi branch never calls the trigger, and it records a
verification call exactly when the signature header is truthy and the
body is non-empty. -/
theorem fordefiPath_trigger (env : Env) (req : HttpRequest) :
    (fordefiPath env req).2.triggerCalls = [] := by
  unfold fordefiPath
  repeat' split
  all_goals rfl

/-- The catch block turns a completed chain into its boolean result in
both verification functions. -/
theorem verify_eq_of_chain_ok {K : Type} (prims : CryptoPrims K) (pem sig : String)
    (body : List Nat) (b : Bool) (h : verifyEcdsaChain prims pem sig body = .ok b) :
    verifySignature prims pem sig body = b ∧
    verifyHypernativeSignature prims pem sig body = b := by
  constructor <;> simp [verifySignature, verifyHypernativeSignature, h]

/-- The catch block turns a failed chain into `false` in both
verification functions. -/
theorem verify_false_of_chain_error {K : Type} (prims : CryptoPrims K) (pem sig : String)
    (body : List Nat) (h : verifyEcdsaChain prims pem sig body = .error ()) :
    verifySignature prims pem sig body = false ∧
    verifyHypernativeSignature prims pem sig body = false := by
  constructor <;> simp [verifySignature, verifyHypernativeSignature, h]

/-- A rejected key import fails the chain. -/
theorem chain_error_of_importKey {K : Type} (prims : CryptoPrims K) (pem sig : String)
    (body : List Nat) (h : prims.importKey (prims.b64Decode (pemStrip pem)) = .error ()) :
    verifyEcdsaChain prims pem sig body = .error () := by
  simp [verifyEcdsaChain, h, Bind.bind, Except.bind]

/-- A DER conversion failure on the decoded envelope fails the chain. -/
theorem chain_error_of_der {K : Type} (prims : CryptoPrims K) (pem sig : String)
    (body : List Nat) (k : K)
    (h1 : prims.importKey (prims.b64Decode (pemStrip pem)) = .ok k)
    (h2 : derToP1363 (prims.b64Decode sig) = .error ()) :
    verifyEcdsaChain prims pem sig body = .error () := by
  simp [verifyEcdsaChain, h1, h2, Bind.bind, Except.bind]

/-- A rejection of the ECDSA primitive fails the chain. -/
theorem chain_error_of_primitive {K : Type} (prims : CryptoPrims K) (pem sig : String)
    (body : List Nat) (k : K) (ieee : List Nat)
    (h1 : prims.importKey (prims.b64Decode (pemStrip pem)) = .ok k)
    (h2 : derToP1363 (prims.b64Decode sig) = .ok ieee)
    (h3 : prims.ecdsaVerify k ieee body = .error ()) :
    verifyEcdsaChain prims pem sig body = .error () := by
  simp [verifyEcdsaChain, h1, h2, h3, Bind.bind, Except.bind]

/-- When every step completes, the chain returns the primitive's
verdict. -/
theorem chain_ok {K : Type} (prims : CryptoPrims K) (pem sig : String)
    (body : List Nat) (k : K) (ieee : List Nat) (b : Bool)
    (h1 : prims.importKey (prims.b64Decode (pemStrip pem)) = .ok k)
    (h2 : derToP1363 (prims.b64Decode sig) = .ok ieee)
    (h3 : prims.ecdsaVerify k ieee body = .ok b) :
    verifyEcdsaChain prims pem sig body = .ok b := by
  simp [verifyEcdsaChain, h1, h2, h3, Bind.bind, Except.bind]

/-- C3: the verification functions are total Boolean functions of
their inputs, and every failure of a fallible step in the chain — the
key import, the DER-to-P1363 conversion of the base64-decoded
envelope, or the underlying ECDSA primitive — is converted to a
`false` result instead of propagating; when all steps complete the
functions return the primitive's verdict. -/
theorem c3_verification_never_propagates {K : Type} (prims : CryptoPrims K)
    (pem sig : String) (body : List Nat) :
    (prims.importKey (prims.b64Decode (pemStrip pem)) = .error () →
      verifySignature prims pem sig body = false ∧
      verifyHypernativeSignature prims pem sig body = false) ∧
    (∀ k, prims.importKey (prims.b64Decode (pemStrip pem)) = .ok k →
      derToP1363 (prims.b64Decode sig) = .error () →
      verifySignature prims pem sig body = false ∧
      verifyHypernativeSignature prims pem sig body = false) ∧
    (∀ k ieee, prims.importKey (prims.b64Decode (pemStrip pem)) = .ok k →
      derToP1363 (prims.b64Decode sig) = .ok ieee →
      prims.ecdsaVerify k ieee body = .error () →
      verifySignature prims pem sig body = false ∧
      verifyHypernativeSignature prims pem sig body = false) ∧
    (∀ k ieee b, prims.importKey (prims.b64Decode (pemStrip pem)) = .ok k →
      derToP1363 (prims.b64Decode sig) = .ok ieee →
      prims.ecdsaVerify k ieee body = .ok b →
      verifySignature prims pem sig body = b ∧
      verifyHypernativeSignature prims pem sig body = b) := by
  refine ⟨?_, ?_, ?_, ?_⟩
  · intro h
    exact verify_false_of_chain_error prims pem sig body
      (chain_error_of_importKey prims pem sig body h)
  · intro k h1 h2
    exact verify_false_of_chain_error prims pem sig body
      (chain_error_of_der prims pem sig body k h1 h2)
  · intro k ieee h1 h2 h3
    exact verify_false_of_chain_error prims pem sig body
      (chain_error_of_primitive prims pem sig body k ieee h1 h2 h3)
  · intro k ieee b h1 h2 h3
    exact verify_eq_of_chain_ok prims pem sig body b
      (chain_ok prims pem sig body k ieee b h1 h2 h3)

/-- Witness for C3: with a key import that rejects, both verification
functions return `false` on a concrete input. -/
theorem c3_verification_never_propagates_witness :
    verifySignature primsRejectKey "key" "sig" [1] = false ∧
    verifyHypernativeSignature primsRejectKey "key" "sig" [1] = false :=
  (c3_verification_never_propagates primsRejectKey "key" "sig" [1]).1 rfl

/-- `bumpParse` changes only the parse counter. -/
theorem bumpParse_parts (p : Response × Trace) :
    (bumpParse p).1 = p.1 ∧
    (bumpParse p).2.bodyParses = p.2.bodyParses + 1 ∧
    (bumpParse p).2.hyperVerifyCalls = p.2.hyperVerifyCalls ∧
    (bumpParse p).2.fordefiVerifyCalls = p.2.fordefiVerifyCalls ∧
    (bumpParse p).2.triggerCalls = p.2.triggerCalls := by
  rcases p with ⟨r, t⟩; exact ⟨rfl, rfl, rfl, rfl, rfl⟩

/-- The Hypernative handler calls the trigger at most once. -/
theorem handleHyper_trigger_len (env : Env) (req : HttpRequest) :
    (handleHypernativeWebhook env req).2.triggerCalls.length ≤ 1 := by
  rcases handleHyper_trigger_spec env req with h |
    ⟨bs, j, sig, s, tid, _, _, _, _, _, _, _, _, _, h, _⟩ <;> simp [h]

/-- The main endpoint either routes to the Hypernative handler after
the speculative routing parse, or falls through to the Fordefi branch
(with or without a routing-parse attempt). -/
theorem handleMain_cases (env : Env) (req : HttpRequest) :
    handleMainWebhook env req = bumpParse (handleHypernativeWebhook env req) ∨
    handleMainWebhook env req = bumpParse (fordefiPath env req) ∨
    handleMainWebhook env req = fordefiPath env req := by
  unfold handleMainWebhook
  repeat' split
  all_goals first
    | exact Or.inl rfl
    | exact Or.inr (Or.inl rfl)
    | exact Or.inr (Or.inr rfl)

/-- Once the signature and data fields are pinned down, the Hypernative
handler records exactly one verification call, over the UTF-8 bytes of
the `data` string. -/
theorem handleHyper_verifyCalls (env : Env) (t x : Option String) (bs : List Nat)
    (j : Json) (sig s : String) (hb : bs.length ≠ 0) (hj : env.parseJson bs = some j)
    (hds : j.lookup "digitalSignature" = some (.str sig)) (hsig : sig ≠ "")
    (hdata : j.lookup "data" = some (.str s)) :
    (handleHypernativeWebhook env ⟨t, x, some bs⟩).2.hyperVerifyCalls =
      [(sig, utf8Bytes s)] := by
  have hdb : dataBytes env (j.lookup "data") = some (utf8Bytes s) := by
    rw [hdata]
    rfl
  rw [handleHyper_eval env t x bs j sig (utf8Bytes s) hb hj hds hsig hdb]
  repeat' split
  all_goals rfl

/-- C9: `triggerTransactionSigning` returns `true` exactly when the
upstream HTTP status is in the 2xx range; any other status and any
network-level failure yield `false` without throwing; the handlers
never call it more than once per request (no retry); and a verified
SourceB request whose trigger call fails is still answered 200 with
the `partial_success` body, whose `signingTriggered` field is
`false`. -/
theorem c9_trigger_2xx_soft_failure :
    (∀ post tid, triggerTransactionSigning post tid = true ↔
      ∃ s, post tid = .response s ∧ 200 ≤ s ∧ s < 300) ∧
    (∀ env req, (handleMainWebhook env req).2.triggerCalls.length ≤ 1 ∧
      (handleHypernativeEndpoint env req).2.triggerCalls.length ≤ 1) ∧
    (∀ env x bs j sig s tid, bs.length ≠ 0 →
      env.parseJson bs = some j →
      j.lookup "digitalSignature" = some (.str sig) → sig ≠ "" →
      j.lookup "data" = some (.str s) →
      env.verifyHyper sig (utf8Bytes s) = true →
      tid ≠ "" → env.trigger tid = false →
      handleHypernativeEndpoint env ⟨some tid, x, some bs⟩ =
        (⟨200, hyperPartialBody tid⟩, ⟨1, [(sig, utf8Bytes s)], [], [tid]⟩)) := by
  refine ⟨?_, ?_, ?_⟩
  · intro post tid
    unfold triggerTransactionSigning
    rcases h : post tid with s | _ <;> simp [h]
  · intro env req
    constructor
    · rcases handleMain_cases env req with h | h | h <;> rw [h]
      · rw [(bumpParse_parts _).2.2.2.2]
        exact handleHyper_trigger_len env req
      · rw [(bumpParse_parts _).2.2.2.2, fordefiPath_trigger]
        simp
      · rw [fordefiPath_trigger]; simp
    · exact handleHyper_trigger_len env req
  · intro env x bs j sig s tid hb hj hds hsig hdata hv htid htr
    show handleHypernativeWebhook env ⟨some tid, x, some bs⟩ = _
    have hdb : dataBytes env (j.lookup "data") = some (utf8Bytes s) := by
      rw [hdata]
      rfl
    rw [handleHyper_eval env (some tid) x bs j sig (utf8Bytes s) hb hj hds hsig hdb]
    simp [hv, htid, htr]

/-- Witness for C9: a 503 upstream yields `false` from the trigger
client, and the concrete fixture request is still answered 200 with
the `partial_success` body. -/
theorem c9_trigger_2xx_soft_failure_witness :
    (triggerTransactionSigning post503 "tx123" = true ↔
      ∃ s, post503 "tx123" = .response s ∧ 200 ≤ s ∧ s < 300) ∧
    handleHypernativeEndpoint envHyperValidTriggerFail
        ⟨some "tx123", none, some exHyperBody⟩ =
      (⟨200, hyperPartialBody "tx123"⟩,
        ⟨1, [("c2ln", utf8Bytes "payload")], [], ["tx123"]⟩) :=
  ⟨c9_trigger_2xx_soft_failure.1 post503 "tx123",
    c9_trigger_2xx_soft_failure.2.2 envHyperValidTriggerFail none exHyperBody
      exHyperJson "c2ln" "payload" "tx123" (by decide) (by simp [envHyperValidTriggerFail, exParse])
      rfl (by decide) rfl rfl (by decide) rfl⟩

/-- C10: `POST /hypernative` is handled by the SourceB handler with no
router classification: the handler's result never depends on the
`x-signature` header, and when the `fordefi-transaction-id` header is
absent a request with a valid signature is answered 200 with the
no-transaction-id body (whose `signingTriggered` field is `false`)
and no trigger call is made. -/
theorem c10_hypernative_endpoint_direct :
    (∀ env t b xs, handleHypernativeEndpoint env ⟨t, xs, b⟩ =
      handleHypernativeEndpoint env ⟨t, none, b⟩) ∧
    (∀ env xs bs j sig s, bs.length ≠ 0 → env.parseJson bs = some j →
      j.lookup "digitalSignature" = some (.str sig) → sig ≠ "" →
      j.lookup "data" = some (.str s) → env.verifyHyper sig (utf8Bytes s) = true →
      handleHypernativeEndpoint env ⟨none, xs, some bs⟩ =
        (⟨200, hyperNoTidBody⟩, ⟨1, [(sig, utf8Bytes s)], [], []⟩)) := by
  constructor
  · intro env t b xs; rfl
  · intro env xs bs j sig s hb hj hds hsig hdata hv
    show handleHypernativeWebhook env ⟨none, xs, some bs⟩ = _
    have hdb : dataBytes env (j.lookup "data") = some (utf8Bytes s) := by
      rw [hdata]
      rfl
    rw [handleHyper_eval env none xs bs j sig (utf8Bytes s) hb hj hds hsig hdb]
    simp [hv]

/-- Witness for C10: the fixture request with no transaction-id header
and a valid signature is answered 200 with `signingTriggered:false`
and no trigger call, whatever the `x-signature` header holds. -/
theorem c10_hypernative_endpoint_direct_witness :
    handleHypernativeEndpoint envHyperValidTriggerFail ⟨none, some "sigheader", some exHyperBody⟩ =
      handleHypernativeEndpoint envHyperValidTriggerFail ⟨none, none, some exHyperBody⟩ ∧
    handleHypernativeEndpoint envHyperValidTriggerFail ⟨none, some "sigheader", some exHyperBody⟩ =
      (⟨200, hyperNoTidBody⟩, ⟨1, [("c2ln", utf8Bytes "payload")], [], []⟩) :=
  ⟨c10_hypernative_endpoint_direct.1 envHyperValidTriggerFail none (some exHyperBody) (some "sigheader"),
    (c10_hypernative_endpoint_direct.1 envHyperValidTriggerFail none (some exHyperBody)
        (some "sigheader")).trans
      (c10_hypernative_endpoint_direct.2 envHyperValidTriggerFail none exHyperBody
        exHyperJson "c2ln" "payload" (by decide)
        (by simp [envHyperValidTriggerFail, exParse]) rfl (by decide) rfl rfl)⟩

/-- C4: on the SourceB path the signature is verified against exactly
the UTF-8 bytes of the literal string value of the top-level `data`
field of the parsed body — both when the handler is reached directly
and when the main endpoint routes to it — and against nothing else. -/
theorem c4_verifies_exact_data_field :
    (∀ env t x bs j sig s, bs.length ≠ 0 → env.parseJson bs = some j →
      j.lookup "digitalSignature" = some (.str sig) → sig ≠ "" →
      j.lookup "data" = some (.str s) →
      (handleHypernativeWebhook env ⟨t, x, some bs⟩).2.hyperVerifyCalls =
        [(sig, utf8Bytes s)]) ∧
    (∀ env x tid bs j sig s, tid ≠ "" → bs.length ≠ 0 →
      env.parseJson bs = some j →
      j.lookup "digitalSignature" = some (.str sig) → sig ≠ "" →
      j.lookup "data" = some (.str s) →
      (handleMainWebhook env ⟨some tid, x, some bs⟩).2.hyperVerifyCalls =
        [(sig, utf8Bytes s)]) := by
  constructor
  · intro env t x bs j sig s hb hj hds hsig hdata
    exact handleHyper_verifyCalls env t x bs j sig s hb hj hds hsig hdata
  · intro env x tid bs j sig s htid hb hj hds hsig hdata
    have hT : jsTruthy (Json.lookup j "digitalSignature") = true := by
      rw [hds]; simpa [jsTruthy, Json.truthy] using hsig
    unfold handleMainWebhook
    simp only [htid, hb, hj, hT, if_true, if_false, ite_false, ite_true, false_or, or_self]
    rw [(bumpParse_parts _).2.2.1]
    exact handleHyper_verifyCalls env (some tid) x bs j sig s hb hj hds hsig hdata

/-- Witness for C4: on the fixture request the single verification
call is over the UTF-8 bytes of the string `"payload"`, the value of
the `data` field. -/
theorem c4_verifies_exact_data_field_witness :
    (handleHypernativeWebhook envAllInvalid ⟨some "tx1", none, some exHyperBody⟩).2.hyperVerifyCalls =
      [("c2ln", utf8Bytes "payload")] ∧
    (handleMainWebhook envAllInvalid ⟨some "tx1", none, some exHyperBody⟩).2.hyperVerifyCalls =
      [("c2ln", utf8Bytes "payload")] :=
  ⟨c4_verifies_exact_data_field.1 envAllInvalid (some "tx1") none exHyperBody
      exHyperJson "c2ln" "payload" (by decide) (by simp [envAllInvalid, exParse]) rfl
      (by decide) rfl,
    c4_verifies_exact_data_field.2 envAllInvalid none "tx1" exHyperBody
      exHyperJson "c2ln" "payload" (by decide) (by decide)
      (by simp [envAllInvalid, exParse]) rfl (by decide) rfl⟩

/-- C1 (amended): the downstream signing trigger is invoked only after
signature verification returned valid over the bytes `Buffer.from`
derived from the `data` value (the UTF-8 bytes of a string, the
coerced entries of an array, the extracted bytes of an array-like
object) — in particular a request with a recognized marker but an
invalid signature is answered 401 and never forwarded to the trigger —
but on the SourceB path the raw body is JSON-parsed *before*
verification, because the signature and the signed `data` sub-field
live inside the JSON. -/
theorem c1_trigger_only_after_valid :
    (∀ env req, (handleMainWebhook env req).2.triggerCalls ≠ [] →
      ∃ bs j sig msg tid, req.body = some bs ∧ bs.length ≠ 0 ∧
        env.parseJson bs = some j ∧
        j.lookup "digitalSignature" = some (.str sig) ∧ sig ≠ "" ∧
        dataBytes env (j.lookup "data") = some msg ∧
        env.verifyHyper sig msg = true ∧
        req.transactionIdHeader = some tid ∧ tid ≠ "") ∧
    (∀ env req, (handleHypernativeEndpoint env req).2.triggerCalls ≠ [] →
      ∃ bs j sig msg tid, req.body = some bs ∧ bs.length ≠ 0 ∧
        env.parseJson bs = some j ∧
        j.lookup "digitalSignature" = some (.str sig) ∧ sig ≠ "" ∧
        dataBytes env (j.lookup "data") = some msg ∧
        env.verifyHyper sig msg = true ∧
        req.transactionIdHeader = some tid ∧ tid ≠ "") ∧
    (∀ env t x bs j sig msg, bs.length ≠ 0 → env.parseJson bs = some j →
      j.lookup "digitalSignature" = some (.str sig) → sig ≠ "" →
      dataBytes env (j.lookup "data") = some msg → env.verifyHyper sig msg = false →
      handleHypernativeWebhook env ⟨t, x, some bs⟩ =
        (⟨401, errBody "Invalid signature"⟩, ⟨1, [(sig, msg)], [], []⟩)) ∧
    (∀ env t sig bs, sig ≠ "" → bs.length ≠ 0 → env.verifyFordefi sig bs = false →
      fordefiPath env ⟨t, some sig, some bs⟩ =
        (⟨401, errBody "Invalid signature"⟩, ⟨0, [], [(sig, bs)], []⟩)) := by
  have hyper : ∀ env req, (handleHypernativeWebhook env req).2.triggerCalls ≠ [] →
      ∃ bs j sig msg tid, req.body = some bs ∧ bs.length ≠ 0 ∧
        env.parseJson bs = some j ∧
        j.lookup "digitalSignature" = some (.str sig) ∧ sig ≠ "" ∧
        dataBytes env (j.lookup "data") = some msg ∧
        env.verifyHyper sig msg = true ∧
        req.transactionIdHeader = some tid ∧ tid ≠ "" := by
    intro env req hne
    rcases handleHyper_trigger_spec env req with h |
      ⟨bs, j, sig, msg, tid, h1, h2, h3, h4, h5, h6, h7, h8, h9, _, _⟩
    · exact absurd h hne
    · exact ⟨bs, j, sig, msg, tid, h1, h2, h3, h4, h5, h6, h7, h8, h9⟩
  refine ⟨?_, ?_, ?_, ?_⟩
  · intro env req hne
    rcases handleMain_cases env req with h | h | h
    · rw [h, (bumpParse_parts _).2.2.2.2] at hne
      exact hyper env req hne
    · rw [h, (bumpParse_parts _).2.2.2.2, fordefiPath_trigger] at hne
      exact absurd rfl hne
    · rw [h, fordefiPath_trigger] at hne
      exact absurd rfl hne
  · exact hyper
  · intro env t x bs j sig msg hb hj hds hsig hdata hv
    rw [handleHyper_eval env t x bs j sig msg hb hj hds hsig hdata]
    simp [hv]
  · intro env t sig bs hsig hb hv
    simp [fordefiPath, hsig, hb, hv]

/-- Counterexample to C1 as stated: this request carries the SourceB
marker and an invalid signature, and is answered 401 with no trigger
call — but its event *is* JSON-parsed before (and regardless of)
verification: the trace records two body parses (the router's
speculative parse and the handler's parse), not zero. -/
theorem c1_counterexample :
    handleMainWebhook envAllInvalid ⟨some "tx123", none, some exHyperBody⟩ =
      (⟨401, errBody "Invalid signature"⟩,
        ⟨2, [("c2ln", utf8Bytes "payload")], [], []⟩) ∧
    (handleMainWebhook envAllInvalid
        ⟨some "tx123", none, some exHyperBody⟩).2.bodyParses ≠ 0 :=
  ⟨rfl, by decide⟩

/-- Witness for C1 (amended): the fixture invalid-signature SourceB
request is answered 401 with no trigger call. -/
theorem c1_trigger_only_after_valid_witness :
    handleHypernativeWebhook envAllInvalid ⟨some "tx9", none, some exHyperBody⟩ =
      (⟨401, errBody "Invalid signature"⟩,
        ⟨1, [("c2ln", utf8Bytes "payload")], [], []⟩) :=
  c1_trigger_only_after_valid.2.2.1 envAllInvalid (some "tx9") none exHyperBody
    exHyperJson "c2ln" (utf8Bytes "payload") (by decide)
    (by simp [envAllInvalid, exParse]) rfl (by decide) rfl rfl

/-- C2 (amended): the main endpoint treats a request as SourceB iff
the `fordefi-transaction-id` header is present with a *non-empty*
value, the body is non-empty and parses as JSON, and the parsed JSON's
`digitalSignature` field is present and *truthy*; otherwise handling
falls through to the Fordefi (SourceA) branch, which answers 401
missing-signature when the `x-signature` header is absent or empty.
In particular a request carrying both markers with a truthy
`digitalSignature` is treated as SourceB. -/
theorem c2_routing_precedence :
    (∀ env x tid bs j, tid ≠ "" → bs.length ≠ 0 → env.parseJson bs = some j →
      jsTruthy (j.lookup "digitalSignature") = true →
      handleMainWebhook env ⟨some tid, x, some bs⟩ =
        bumpParse (handleHypernativeWebhook env ⟨some tid, x, some bs⟩)) ∧
    (∀ env req,
      strTruthy req.transactionIdHeader = false ∨ req.body = none ∨ req.body = some [] →
      handleMainWebhook env req = fordefiPath env req) ∧
    (∀ env x tid bs, tid ≠ "" → bs.length ≠ 0 → env.parseJson bs = none →
      handleMainWebhook env ⟨some tid, x, some bs⟩ =
        bumpParse (fordefiPath env ⟨some tid, x, some bs⟩)) ∧
    (∀ env x tid bs j, tid ≠ "" → bs.length ≠ 0 → env.parseJson bs = some j →
      jsTruthy (j.lookup "digitalSignature") = false →
      handleMainWebhook env ⟨some tid, x, some bs⟩ =
        bumpParse (fordefiPath env ⟨some tid, x, some bs⟩)) ∧
    (∀ env req, strTruthy req.xSignatureHeader = false →
      (fordefiPath env req).1 = ⟨401, errBody "Missing signature"⟩) := by
  refine ⟨?_, ?_, ?_, ?_, ?_⟩
  · intro env x tid bs j htid hb hj hT
    unfold handleMainWebhook
    simp [htid, hb, hj, hT]
  · intro env req h
    rcases req with ⟨t, x, b⟩
    rcases t with _ | tid
    · rcases b with _ | bs <;> rfl
    · rcases b with _ | bs
      · rfl
      · rcases h with h | h | h
        · simp only [strTruthy] at h
          unfold handleMainWebhook
          simp [of_decide_eq_false h]
        · exact absurd h (by simp)
        · have : bs = [] := by injection h
          subst this
          unfold handleMainWebhook
          simp
  · intro env x tid bs htid hb hj
    unfold handleMainWebhook
    simp [htid, hb, hj]
  · intro env x tid bs j htid hb hj hT
    unfold handleMainWebhook
    simp [htid, hb, hj, hT]
  · intro env req h
    rcases req with ⟨t, x, b⟩
    rcases x with _ | sig
    · rfl
    · simp only [strTruthy] at h
      have hs : sig = "" := not_not.mp (of_decide_eq_false h)
      unfold fordefiPath
      simp [hs]

/-- Counterexample to C2 as stated: this request carries both markers
and its JSON body *contains* a `digitalSignature` field (the empty
string), yet it is not classified SourceB: the code requires a truthy
field, so the request falls through to the SourceA path and the
Fordefi verifier is consulted on the whole raw body. -/
theorem c2_counterexample :
    envAllInvalid.parseJson exFalsySigBody = some exFalsySigJson ∧
    exFalsySigJson.lookup "digitalSignature" = some (.str "") ∧
    handleMainWebhook envAllInvalid ⟨some "tx1", some "abc", some exFalsySigBody⟩ =
      (⟨401, errBody "Invalid signature"⟩, ⟨1, [], [("abc", exFalsySigBody)], []⟩) :=
  ⟨by
    have h : exFalsySigBody ≠ exHyperBody := by decide
    simp [envAllInvalid, exParse, h], rfl, rfl⟩

/-- Witness for C2 (amended): the fixture request with both markers
and a truthy `digitalSignature` is routed to the Hypernative
handler. -/
theorem c2_routing_precedence_witness :
    handleMainWebhook envAllValid ⟨some "tx1", none, some exHyperBody⟩ =
      bumpParse (handleHypernativeWebhook envAllValid ⟨some "tx1", none, some exHyperBody⟩) :=
  c2_routing_precedence.1 envAllValid none "tx1" exHyperBody exHyperJson
    (by decide) (by decide) (by simp [envAllValid, exParse]) rfl

/-- Exhaustive list of the responses the Hypernative handler can
emit. -/
theorem handleHyper_response_cases (env : Env) (req : HttpRequest) :
    (handleHypernativeWebhook env req).1 = ⟨400, errBody "Empty request body"⟩ ∨
    (handleHypernativeWebhook env req).1 = ⟨500, errBody "Internal server error"⟩ ∨
    (handleHypernativeWebhook env req).1 = ⟨401, errBody "Missing digitalSignature"⟩ ∨
    (handleHypernativeWebhook env req).1 = ⟨401, errBody "Invalid signature"⟩ ∨
    (handleHypernativeWebhook env req).1.status = 200 := by
  unfold handleHypernativeWebhook
  repeat' split
  all_goals simp

/-- Exhaustive list of the responses the Fordefi branch can emit. -/
theorem fordefiPath_response_cases (env : Env) (req : HttpRequest) :
    (fordefiPath env req).1 = ⟨401, errBody "Missing signature"⟩ ∨
    (fordefiPath env req).1 = ⟨400, errBody "Empty request body"⟩ ∨
    (fordefiPath env req).1 = ⟨500, errBody "Internal server error"⟩ ∨
    (fordefiPath env req).1 = ⟨401, errBody "Invalid signature"⟩ ∨
    (fordefiPath env req).1.status = 200 := by
  unfold fordefiPath
  repeat' split
  all_goals simp

/-- C6 (amended): every verification-path failure is answered with
status 401, and a present-but-unverifiable signature — whether its
encoding is malformed (the DER conversion rejects) or it is a plain
cryptographic mismatch — always produces the identical
`Invalid signature` response; but missing-marker and missing-field
failures carry distinct bodies (`Missing signature` on the main
endpoint, `Missing digitalSignature` on the SourceB path), so those
failure modes are distinguishable from the body. -/
theorem c6_401_uniform_status :
    (∀ env req, (handleMainWebhook env req).1.status = 401 →
      (handleMainWebhook env req).1.body = errBody "Missing signature" ∨
      (handleMainWebhook env req).1.body = errBody "Missing digitalSignature" ∨
      (handleMainWebhook env req).1.body = errBody "Invalid signature") ∧
    (∀ env req, (handleHypernativeEndpoint env req).1.status = 401 →
      (handleHypernativeEndpoint env req).1.body = errBody "Missing digitalSignature" ∨
      (handleHypernativeEndpoint env req).1.body = errBody "Invalid signature") ∧
    (∀ K (prims : CryptoPrims K) pem sig body k,
      prims.importKey (prims.b64Decode (pemStrip pem)) = .ok k →
      derToP1363 (prims.b64Decode sig) = .error () →
      verifySignature prims pem sig body = false) ∧
    (∀ K (prims : CryptoPrims K) pem sig body k ieee,
      prims.importKey (prims.b64Decode (pemStrip pem)) = .ok k →
      derToP1363 (prims.b64Decode sig) = .ok ieee →
      prims.ecdsaVerify k ieee body = .ok false →
      verifySignature prims pem sig body = false) ∧
    (∀ env t1 t2 sig1 sig2 bs1 bs2, sig1 ≠ "" → bs1.length ≠ 0 →
      env.verifyFordefi sig1 bs1 = false →
      sig2 ≠ "" → bs2.length ≠ 0 → env.verifyFordefi sig2 bs2 = false →
      (fordefiPath env ⟨t1, some sig1, some bs1⟩).1 =
        (fordefiPath env ⟨t2, some sig2, some bs2⟩).1 ∧
      (fordefiPath env ⟨t1, some sig1, some bs1⟩).1.status = 401) ∧
    (∀ env t1 x1 bs1 j1 sig1 s1 t2 x2 bs2 j2 sig2 s2,
      bs1.length ≠ 0 → env.parseJson bs1 = some j1 →
      j1.lookup "digitalSignature" = some (.str sig1) → sig1 ≠ "" →
      j1.lookup "data" = some (.str s1) → env.verifyHyper sig1 (utf8Bytes s1) = false →
      bs2.length ≠ 0 → env.parseJson bs2 = some j2 →
      j2.lookup "digitalSignature" = some (.str sig2) → sig2 ≠ "" →
      j2.lookup "data" = some (.str s2) → env.verifyHyper sig2 (utf8Bytes s2) = false →
      (handleHypernativeWebhook env ⟨t1, x1, some bs1⟩).1 =
        (handleHypernativeWebhook env ⟨t2, x2, some bs2⟩).1 ∧
      (handleHypernativeWebhook env ⟨t1, x1, some bs1⟩).1.status = 401) := by
  refine ⟨?_, ?_, ?_, ?_, ?_, ?_⟩
  · intro env req hst
    rcases handleMain_cases env req with h | h | h
    · rw [h, (bumpParse_parts _).1] at hst ⊢
      rcases handleHyper_response_cases env req with h' | h' | h' | h' | h'
      · rw [h'] at hst; simp at hst
      · rw [h'] at hst; simp at hst
      · rw [h']; simp
      · rw [h']; simp
      · rw [hst] at h'; simp at h'
    · rw [h, (bumpParse_parts _).1] at hst ⊢
      rcases fordefiPath_response_cases env req with h' | h' | h' | h' | h'
      · rw [h']; simp
      · rw [h'] at hst; simp at hst
      · rw [h'] at hst; simp at hst
      · rw [h']; simp
      · rw [hst] at h'; simp at h'
    · rw [h] at hst ⊢
      rcases fordefiPath_response_cases env req with h' | h' | h' | h' | h'
      · rw [h']; simp
      · rw [h'] at hst; simp at hst
      · rw [h'] at hst; simp at hst
      · rw [h']; simp
      · rw [hst] at h'; simp at h'
  · intro env req hst
    rcases handleHyper_response_cases env req with h' | h' | h' | h' | h'
    · rw [show (handleHypernativeEndpoint env req).1 =
          (handleHypernativeWebhook env req).1 from rfl, h'] at hst
      simp at hst
    · rw [show (handleHypernativeEndpoint env req).1 =
          (handleHypernativeWebhook env req).1 from rfl, h'] at hst
      simp at hst
    · rw [show (handleHypernativeEndpoint env req).1 =
          (handleHypernativeWebhook env req).1 from rfl, h']
      simp
    · rw [show (handleHypernativeEndpoint env req).1 =
          (handleHypernativeWebhook env req).1 from rfl, h']
      simp
    · rw [show (handleHypernativeEndpoint env req).1.status =
          (handleHypernativeWebhook env req).1.status from rfl] at hst
      rw [hst] at h'
      simp at h'
  · intro K prims pem sig body k h1 h2
    exact (verify_false_of_chain_error prims pem sig body
      (chain_error_of_der prims pem sig body k h1 h2)).1
  · intro K prims pem sig body k ieee h1 h2 h3
    exact (verify_eq_of_chain_ok prims pem sig body false
      (chain_ok prims pem sig body k ieee false h1 h2 h3)).1
  · intro env t1 t2 sig1 sig2 bs1 bs2 hs1 hb1 hv1 hs2 hb2 hv2
    constructor
    · simp [fordefiPath, hs1, hb1, hv1, hs2, hb2, hv2]
    · simp [fordefiPath, hs1, hb1, hv1]
  · intro env t1 x1 bs1 j1 sig1 s1 t2 x2 bs2 j2 sig2 s2
      hb1 hj1 hds1 hsg1 hd1 hv1 hb2 hj2 hds2 hsg2 hd2 hv2
    have hdb1 : dataBytes env (j1.lookup "data") = some (utf8Bytes s1) := by
      rw [hd1]
      rfl
    have hdb2 : dataBytes env (j2.lookup "data") = some (utf8Bytes s2) := by
      rw [hd2]
      rfl
    rw [handleHyper_eval env t1 x1 bs1 j1 sig1 (utf8Bytes s1) hb1 hj1 hds1 hsg1 hdb1,
      handleHyper_eval env t2 x2 bs2 j2 sig2 (utf8Bytes s2) hb2 hj2 hds2 hsg2 hdb2]
    simp [hv1, hv2]

/-- Counterexample to C6 as stated: a missing-field failure and a
cryptographic mismatch both receive status 401, but their response
bodies differ (`Missing digitalSignature` vs `Invalid signature`), so
the caller can distinguish these failure modes. -/
theorem c6_counterexample :
    (handleHypernativeEndpoint envAllInvalid ⟨none, none, some exNoSigBody⟩).1.status = 401 ∧
    (handleHypernativeEndpoint envAllInvalid ⟨none, none, some exHyperBody⟩).1.status = 401 ∧
    (handleHypernativeEndpoint envAllInvalid ⟨none, none, some exNoSigBody⟩).1.body ≠
      (handleHypernativeEndpoint envAllInvalid ⟨none, none, some exHyperBody⟩).1.body := by
  refine ⟨rfl, rfl, ?_⟩
  show errBody "Missing digitalSignature" ≠ errBody "Invalid signature"
  simp [errBody]

/-- Witness for C6 (amended): two concrete requests failing
verification for different signatures receive the identical 401
response on the Fordefi path. -/
theorem c6_401_uniform_status_witness :
    (fordefiPath envAllInvalid ⟨none, some "a", some exNoSigBody⟩).1 =
      (fordefiPath envAllInvalid ⟨none, some "b", some exFalsySigBody⟩).1 ∧
    (fordefiPath envAllInvalid ⟨none, some "a", some exNoSigBody⟩).1.status = 401 :=
  c6_401_uniform_status.2.2.2.2.1 envAllInvalid none none "a" "b" exNoSigBody
    exFalsySigBody (by decide) (by decide) rfl (by decide) (by decide) rfl

/-- C7 (amended): on the `/hypernative` endpoint an absent or empty
body is always answered 400; on the main endpoint it is answered 400
only when a non-empty `x-signature` header is present — when that
header is absent or empty, the signature check runs first and the
request is answered 401 missing-signature instead. -/
theorem c7_empty_body_order :
    (∀ env t x, handleHypernativeEndpoint env ⟨t, x, none⟩ =
        (⟨400, errBody "Empty request body"⟩, ⟨0, [], [], []⟩) ∧
      handleHypernativeEndpoint env ⟨t, x, some []⟩ =
        (⟨400, errBody "Empty request body"⟩, ⟨0, [], [], []⟩)) ∧
    (∀ env t sig, sig ≠ "" →
      handleMainWebhook env ⟨t, some sig, none⟩ =
        (⟨400, errBody "Empty request body"⟩, ⟨0, [], [], []⟩) ∧
      handleMainWebhook env ⟨t, some sig, some []⟩ =
        (⟨400, errBody "Empty request body"⟩, ⟨0, [], [], []⟩)) ∧
    (∀ env t x, strTruthy x = false →
      handleMainWebhook env ⟨t, x, none⟩ =
        (⟨401, errBody "Missing signature"⟩, ⟨0, [], [], []⟩) ∧
      handleMainWebhook env ⟨t, x, some []⟩ =
        (⟨401, errBody "Missing signature"⟩, ⟨0, [], [], []⟩)) := by
  refine ⟨?_, ?_, ?_⟩
  · intro env t x
    exact ⟨rfl, rfl⟩
  · intro env t sig hsig
    constructor
    · rcases t with _ | tid
      · simp [handleMainWebhook, fordefiPath, hsig]
      · simp [handleMainWebhook, fordefiPath, hsig]
    · rcases t with _ | tid
      · simp [handleMainWebhook, fordefiPath, hsig]
      · simp [handleMainWebhook, fordefiPath, hsig]
  · intro env t x hx
    rcases x with _ | sig
    · constructor
      · rcases t with _ | tid <;> rfl
      · rcases t with _ | tid <;> simp [handleMainWebhook, fordefiPath]
    · simp only [strTruthy] at hx
      have hs : sig = "" := not_not.mp (of_decide_eq_false hx)
      subst hs
      constructor
      · rcases t with _ | tid <;> simp [handleMainWebhook, fordefiPath]
      · rcases t with _ | tid <;> simp [handleMainWebhook, fordefiPath]

/-- Counterexample to C7 as stated: an empty-body request with no
headers at all to the main endpoint is answered 401
missing-signature, not 400 — the `x-signature` check precedes the
body check on the Fordefi path. -/
theorem c7_counterexample :
    handleMainWebhook envAllInvalid ⟨none, none, some []⟩ =
      (⟨401, errBody "Missing signature"⟩, ⟨0, [], [], []⟩) ∧
    (handleMainWebhook envAllInvalid ⟨none, none, some []⟩).1.status ≠ 400 :=
  ⟨rfl, by decide⟩

/-- Witness for C7 (amended): with a non-empty `x-signature` header an
empty-body request to the main endpoint is answered 400. -/
theorem c7_empty_body_order_witness :
    handleMainWebhook envAllInvalid ⟨none, some "abc", none⟩ =
      (⟨400, errBody "Empty request body"⟩, ⟨0, [], [], []⟩) :=
  (c7_empty_body_order.2.1 envAllInvalid none "abc" (by decide)).1

/-- C8 (amended): startup key loading fails fatally only when the key
text cannot be obtained at all (no environment variable and a failed
file read); the key text is not decoded or parsed at startup, so an
invalid-base64 or structurally invalid key is accepted and the
process serves traffic — the key-format failure instead occurs
per-request inside the verifier, where the rejected key import is
caught and yields a `false` verification result, not a fatal error. -/
theorem c8_key_loading_startup :
    (∀ k f, loadPublicKey (some k) f = .ok k) ∧
    (∀ k, loadPublicKey none (.ok k) = .ok k) ∧
    loadPublicKey none (.error ()) = .error () ∧
    (∀ (K : Type) (prims : CryptoPrims K) pem sig body,
      prims.importKey (prims.b64Decode (pemStrip pem)) = .error () →
      verifySignature prims pem sig body = false ∧
      verifyHypernativeSignature prims pem sig body = false) := by
  refine ⟨fun k f => rfl, fun k => rfl, rfl, ?_⟩
  intro K prims pem sig body h
  exact verify_false_of_chain_error prims pem sig body
    (chain_error_of_importKey prims pem sig body h)

/-- Counterexample to C8 as stated: a configured key text that is not
valid base64 (and can never import as a structurally valid key) loads
successfully at process start, so the process serves traffic; the
key-format failure occurs per-request, where the rejecting import is
converted to a `false` verification result. -/
theorem c8_counterexample :
    loadPublicKey (some "%%%not-base64%%%") (.error ()) = .ok "%%%not-base64%%%" ∧
    verifySignature primsRejectKey "%%%not-base64%%%" "sig" [1] = false :=
  ⟨rfl, rfl⟩

/-- Witness for C8 (amended) at a concrete key text and request. -/
theorem c8_key_loading_startup_witness :
    loadPublicKey (some "keytext") (.error ()) = .ok "keytext" ∧
    verifySignature primsRejectKey "keytext" "s" [] = false :=
  ⟨c8_key_loading_startup.1 "keytext" (.error ()),
    (c8_key_loading_startup.2.2.2 Unit primsRejectKey "keytext" "s" [] rfl).1⟩

/-- `strip1` on a list with non-zero head is the identity. -/
theorem strip1_cons_succ (b : Nat) (rest : List Nat) (h : b ≠ 0) :
    strip1 (b :: rest) = b :: rest := by
  rcases b with _ | b'
  · exact absurd rfl h
  · rfl

/-- `strip1` removes at most one byte. -/
theorem length_le_strip1 (c : List Nat) : c.length ≤ (strip1 c).length + 1 := by
  rcases c with _ | ⟨b, rest⟩
  · simp [strip1]
  rcases b with _ | b'
  · simp [strip1]
  · rw [strip1_cons_succ _ _ (Nat.succ_ne_zero b')]
    simp

/-- Padding a component of at most 32 bytes yields exactly 32 bytes. -/
theorem pad32_length (bs : List Nat) (h : bs.length ≤ 32) :
    (pad32 bs).length = 32 := by
  simp [pad32]
  omega

/-- Leading zero bytes do not change the big-endian value. -/
theorem bytesToNat_replicate_zero (k : Nat) (bs : List Nat) :
    bytesToNat (List.replicate k 0 ++ bs) = bytesToNat bs := by
  induction k with
  | zero => rfl
  | succ n ih =>
    rw [List.replicate_succ, List.cons_append]
    have h0 : bytesToNat (0 :: (List.replicate n 0 ++ bs)) =
        bytesToNat (List.replicate n 0 ++ bs) := by
      simp [bytesToNat]
    rw [h0, ih]

/-- Stripping the sign byte does not change the big-endian value. -/
theorem bytesToNat_strip1 (c : List Nat) : bytesToNat (strip1 c) = bytesToNat c := by
  rcases c with _ | ⟨b, rest⟩
  · rfl
  rcases b with _ | b'
  · show bytesToNat rest = bytesToNat (0 :: rest)
    simp [bytesToNat]
  · rw [strip1_cons_succ _ _ (Nat.succ_ne_zero b')]

/-- A padded stripped component keeps the component's value. -/
theorem bytesToNat_pad32_strip1 (c : List Nat) :
    bytesToNat (pad32 (strip1 c)) = bytesToNat c := by
  rw [pad32, bytesToNat_replicate_zero, bytesToNat_strip1]

/-- `convInt` accepts a non-empty non-negative component of at most 32
stripped bytes and left-pads it. -/
theorem convInt_ok (c : List Nat) (hne : c ≠ []) (hpos : c.headD 0 < 128)
    (hlen : (strip1 c).length ≤ 32) : convInt c = .ok (pad32 (strip1 c)) := by
  rcases c with _ | ⟨b, rest⟩
  · exact absurd rfl hne
  · simp only [List.headD_cons] at hpos
    have h1 : ¬ 128 ≤ b := by omega
    have h2 : ¬ 32 < (strip1 (b :: rest)).length := by omega
    simp [convInt, h1, h2]

/-- `convInt` rejects a negative component. -/
theorem convInt_error_neg (c : List Nat) (h : 128 ≤ c.headD 0) :
    convInt c = .error () := by
  rcases c with _ | ⟨b, rest⟩
  · simp [List.headD] at h
  · simp only [List.headD_cons] at h
    simp [convInt, h]

/-- `convInt` rejects a component longer than 32 bytes after
stripping. -/
theorem convInt_error_long (c : List Nat) (h : 32 < (strip1 c).length) :
    convInt c = .error () := by
  rcases c with _ | ⟨b, rest⟩
  · simp [strip1] at h
  · by_cases h128 : 128 ≤ b
    · simp [convInt, h128]
    · simp [convInt, h128, h]

/-- Inversion: everything `convInt` accepts satisfies the component
conditions and is the padded stripped component. -/
theorem convInt_ok_inv (c out : List Nat) (h : convInt c = .ok out) :
    c ≠ [] ∧ c.headD 0 < 128 ∧ (strip1 c).length ≤ 32 ∧
    out = pad32 (strip1 c) := by
  rcases c with _ | ⟨b, rest⟩
  · simp [convInt] at h
  · by_cases h128 : 128 ≤ b
    · simp [convInt, h128] at h
    · by_cases hlen : 32 < (strip1 (b :: rest)).length
      · simp [convInt, h128, hlen] at h
      · simp [convInt, h128, hlen] at h
        refine ⟨by simp, by simp only [List.headD_cons]; omega, by omega, h.symm⟩

/-- Evaluation of the codec on a well-formed two-INTEGER sequence:
only the component conversions remain. -/
theorem derToP1363_mkDer (rc sc : List Nat) (hr : rc.length ≤ 61) (hs : sc.length ≤ 61) :
    derToP1363 (mkDer rc sc) =
      match convInt rc, convInt sc with
      | .ok r32, .ok s32 => .ok (r32 ++ s32)
      | _, _ => .error () := by
  have h1 : ¬(128 ≤ 4 + rc.length + sc.length ∨
      (2 :: rc.length :: (rc ++ 2 :: sc.length :: sc)).length ≠
        4 + rc.length + sc.length) := by
    simp [List.length_append]
    omega
  have h2 : ¬(128 ≤ rc.length ∨ (rc ++ 2 :: sc.length :: sc).length < rc.length) := by
    simp [List.length_append]
    omega
  have h3 : ¬(128 ≤ sc.length ∨ sc.length ≠ sc.length) := by
    simp
    omega
  have htake : (rc ++ 2 :: sc.length :: sc).take rc.length = rc :=
    List.take_left rc _
  have hdrop : (rc ++ 2 :: sc.length :: sc).drop rc.length = 2 :: sc.length :: sc :=
    List.drop_left rc _
  show derToP1363
      (48 :: (4 + rc.length + sc.length) :: 2 :: rc.length ::
        (rc ++ 2 :: sc.length :: sc)) = _
  simp only [derToP1363]
  rw [if_neg h1]
  rw [if_neg h2, hdrop]
  simp only [if_neg h3, htake]

/-- Completeness of the codec: everything it accepts is a well-formed
two-INTEGER sequence whose components satisfy the conditions, and the
output is the concatenation of the padded stripped components. -/
theorem derToP1363_ok_shape (bs out : List Nat) (h : derToP1363 bs = .ok out) :
    ∃ rc sc, bs = mkDer rc sc ∧ rc ≠ [] ∧ sc ≠ [] ∧
      rc.headD 0 < 128 ∧ sc.headD 0 < 128 ∧
      (strip1 rc).length ≤ 32 ∧ (strip1 sc).length ≤ 32 ∧
      out = pad32 (strip1 rc) ++ pad32 (strip1 sc) := by
  unfold derToP1363 at h
  split at h
  case h_2 => exact absurd h (by simp)
  rename_i len rest
  split at h
  · exact absurd h (by simp)
  rename_i hcond1
  split at h
  case h_2 => exact absurd h (by simp)
  rename_i rlen rest2
  split at h
  · exact absurd h (by simp)
  rename_i hcond2
  split at h
  case h_2 => exact absurd h (by simp)
  rename_i slen sc hdropEq
  split at h
  · exact absurd h (by simp)
  rename_i hcond3
  split at h
  case h_2 => exact absurd h (by simp)
  rename_i r32 s32 hcr hcs
  have hout : out = r32 ++ s32 := by
    simpa using h.symm
  push_neg at hcond1 hcond2 hcond3
  obtain ⟨hlen1, hrest⟩ := hcond1
  obtain ⟨hrlen1, hrlen2⟩ := hcond2
  obtain ⟨hslen1, hslen2⟩ := hcond3
  obtain ⟨hrcne, hrcpos, hrclen, hr32⟩ := convInt_ok_inv _ _ hcr
  obtain ⟨hscne, hscpos, hsclen, hs32⟩ := convInt_ok_inv _ _ hcs
  refine ⟨rest2.take rlen, sc, ?_, hrcne, hscne, hrcpos, hscpos, hrclen, hsclen, ?_⟩
  · have htl : (rest2.take rlen).length = rlen := by
      rw [List.length_take]
      omega
    have hsplit : rest2 = rest2.take rlen ++ (2 :: slen :: sc) := by
      conv_lhs => rw [← List.take_append_drop rlen rest2]
      rw [hdropEq]
    have hlen' : len = 4 + (rest2.take rlen).length + sc.length := by
      have hr2len : rest2.length = rlen + 2 + sc.length := by
        conv_lhs => rw [hsplit]
        simp [htl]
        omega
      simp at hrest
      rw [htl]
      omega
    rw [mkDer, ← hlen', htl]
    conv_lhs => rw [hsplit]
    rw [hslen2]
  · rw [hout, hr32, hs32]

/-- C5 (spec-modelled): on a DER two-INTEGER sequence whose components,
after stripping a single leading `0x00` sign byte, are non-negative
and at most 32 bytes, the codec returns exactly 64 bytes — the
32-byte big-endian `r` (left-padded with zeros) followed by the
32-byte big-endian `s`, each equal in value to the original integer;
a negative component or one exceeding 32 bytes after stripping is
rejected, and everything the codec accepts is such a two-INTEGER
sequence. -/
theorem c5_der_codec_round_trip :
    (∀ rc sc, rc ≠ [] → sc ≠ [] → rc.headD 0 < 128 → sc.headD 0 < 128 →
      (strip1 rc).length ≤ 32 → (strip1 sc).length ≤ 32 →
      derToP1363 (mkDer rc sc) = .ok (pad32 (strip1 rc) ++ pad32 (strip1 sc)) ∧
      (pad32 (strip1 rc) ++ pad32 (strip1 sc)).length = 64 ∧
      (pad32 (strip1 rc)).length = 32 ∧ (pad32 (strip1 sc)).length = 32 ∧
      bytesToNat (pad32 (strip1 rc)) = bytesToNat rc ∧
      bytesToNat (pad32 (strip1 sc)) = bytesToNat sc) ∧
    (∀ rc sc, rc.length ≤ 61 → sc.length ≤ 61 →
      (128 ≤ rc.headD 0 ∨ 128 ≤ sc.headD 0 ∨
        32 < (strip1 rc).length ∨ 32 < (strip1 sc).length) →
      derToP1363 (mkDer rc sc) = .error ()) ∧
    (∀ bs out, derToP1363 bs = .ok out →
      ∃ rc sc, bs = mkDer rc sc ∧ rc ≠ [] ∧ sc ≠ [] ∧
        rc.headD 0 < 128 ∧ sc.headD 0 < 128 ∧
        (strip1 rc).length ≤ 32 ∧ (strip1 sc).length ≤ 32 ∧
        out = pad32 (strip1 rc) ++ pad32 (strip1 sc)) := by
  refine ⟨?_, ?_, derToP1363_ok_shape⟩
  · intro rc sc hrne hsne hrpos hspos hrlen hslen
    have hr61 : rc.length ≤ 61 := by
      have := length_le_strip1 rc
      omega
    have hs61 : sc.length ≤ 61 := by
      have := length_le_strip1 sc
      omega
    have hPr := pad32_length (strip1 rc) hrlen
    have hPs := pad32_length (strip1 sc) hslen
    refine ⟨?_, by simp [hPr, hPs], hPr, hPs,
      bytesToNat_pad32_strip1 rc, bytesToNat_pad32_strip1 sc⟩
    rw [derToP1363_mkDer rc sc hr61 hs61,
      convInt_ok rc hrne hrpos hrlen, convInt_ok sc hsne hspos hslen]
  · intro rc sc hr61 hs61 hbad
    rw [derToP1363_mkDer rc sc hr61 hs61]
    rcases hbad with hb | hb | hb | hb
    · rw [convInt_error_neg rc hb]
    · rw [convInt_error_neg sc hb]
      rcases hcr : convInt rc with e | r32 <;> rfl
    · rw [convInt_error_long rc hb]
    · rw [convInt_error_long sc hb]
      rcases hcr : convInt rc with e | r32 <;> rfl

/-- Witness for C5 at a concrete signature: `r = 1` and
`s = 0x00 ∥ 0xFF` (a stripped sign byte): the codec emits the two
padded 32-byte components and preserves both integer values. -/
theorem c5_der_codec_round_trip_witness :
    derToP1363 (mkDer [1] [0, 255]) =
      .ok (pad32 (strip1 [1]) ++ pad32 (strip1 [0, 255])) ∧
    bytesToNat (pad32 (strip1 [0, 255])) = bytesToNat [0, 255] :=
  ⟨(c5_der_codec_round_trip.1 [1] [0, 255] (by decide) (by decide) (by decide)
      (by decide) (by decide) (by decide)).1,
    (c5_der_codec_round_trip.1 [1] [0, 255] (by decide) (by decide) (by decide)
      (by decide) (by decide) (by decide)).2.2.2.2.2⟩

end Webhooks
